import Mathlib

/-!
Verification of the `MyUniquePtr` exclusive-ownership smart pointer
(src/MyUnique_ptr/MyUnique_ptr.cpp).

Shallow embedding: an owner `MyUniquePtr H D` carries the stored raw
handle (`ptr : Option H`, `none` modelling C++ `nullptr`) and the stored
releaser value (`deleter : D`).  Every operation that may invoke the
releaser returns, alongside its result, the list of release events it
performs, in the order they happen in the C++ source.  Each event records
the releaser value used, the handle it is applied to, and the value of
the owner's stored `ptr` field at the instant the releaser is invoked
(to capture statement ordering inside `reset`).
-/

namespace MyUniqueSpec

/-- Release-strategy tag distinguishing the two `DefaultDeleter`
specializations of the source: the base template performs `delete ptr`
(single object release), the `T[]` specialization performs
`delete[] ptr` (block release). -/
inductive DeleteKind where
  | single
  | block
deriving DecidableEq

/-- The owner `MyUniquePtr<T, Deleter>`: a stored raw handle `ptr`
(`none` = `nullptr`) and a stored releaser value `deleter`. -/
structure MyUniquePtr (H D : Type) where
  ptr : Option H
  deleter : D
deriving DecidableEq

/-- One invocation of a releaser.  `releaser` is the releaser value
invoked, `target` the handle it is applied to, and `storedAtCall` the
value of the invoking owner's `ptr` field at the moment of invocation
(the C++ source invokes `deleter(ptr)` before overwriting `ptr`). -/
structure ReleaseEvent (H D : Type) where
  releaser : D
  target : H
  storedAtCall : Option H
deriving DecidableEq

variable {H D : Type}

/-- `get()`: returns the raw handle without affecting ownership. -/
def MyUniquePtr.get (u : MyUniquePtr H D) : Option H :=
  u.ptr

/-- `operator*` / scalar dereference: reads through the stored handle.
The source performs no null check (`return *ptr;`); dereferencing an
absent owner is undefined behaviour, modelled as `none`. -/
def MyUniquePtr.deref (u : MyUniquePtr H D) : Option H :=
  u.ptr

/-- `reset(p)` (source lines 85-90): if the stored handle is non-null,
invoke the stored releaser on it — at that instant `ptr` still holds the
old handle, since the source only assigns `ptr = p` afterwards — then
store `p` as the new handle.  Returns the updated owner and the release
events performed. -/
def MyUniquePtr.reset (u : MyUniquePtr H D) (p : Option H) :
    MyUniquePtr H D × List (ReleaseEvent H D) :=
  match u.ptr with
  | some h => (⟨p, u.deleter⟩, [⟨u.deleter, h, some h⟩])
  | none => (⟨p, u.deleter⟩, [])

/-- The destructor (source lines 58-60): `reset()` with no new handle.
Only the release events remain observable. -/
def MyUniquePtr.destruct (u : MyUniquePtr H D) : List (ReleaseEvent H D) :=
  (u.reset none).2

/-- `release()` (source lines 78-82): returns the stored handle, nulls
the owner's handle, and invokes no releaser (empty event list).  The
stored releaser field is not touched. -/
def MyUniquePtr.release (u : MyUniquePtr H D) :
    Option H × MyUniquePtr H D × List (ReleaseEvent H D) :=
  (u.ptr, ⟨none, u.deleter⟩, [])

/-- The move constructor (source lines 42-44): steals `other`'s handle
and releaser, nulls `other.ptr`, and invokes no releaser.  Result is
(new owner, moved-from owner, release events). -/
def MyUniquePtr.moveCtor (other : MyUniquePtr H D) :
    MyUniquePtr H D × MyUniquePtr H D × List (ReleaseEvent H D) :=
  (⟨other.ptr, other.deleter⟩, ⟨none, other.deleter⟩, [])

/-- Member `swap` (source lines 93-96): exchanges `ptr` and `deleter`
with the other owner; invokes no releaser. -/
def MyUniquePtr.swap (a b : MyUniquePtr H D) :
    MyUniquePtr H D × MyUniquePtr H D × List (ReleaseEvent H D) :=
  (⟨b.ptr, b.deleter⟩, ⟨a.ptr, a.deleter⟩, [])

/-- Non-member `swap` (source lines 100-103): delegates to the member. -/
def swapFree (a b : MyUniquePtr H D) :
    MyUniquePtr H D × MyUniquePtr H D × List (ReleaseEvent H D) :=
  a.swap b

/-- A collection of owners addressed by identity, modelling the fact
that the C++ move-assignment operator compares object addresses
(`this != &other`). -/
abbrev Store (H D : Type) := Nat → MyUniquePtr H D

/-- Move assignment (source lines 47-55) of the owner at address `j`
into the owner at address `i`.  If the addresses coincide
(`this == &other`) nothing happens.  Otherwise the target first runs
`reset()` (releasing its current resource), then takes the source's
handle and releaser, and the source's handle is nulled. -/
def moveAssign (s : Store H D) (i j : Nat) :
    Store H D × List (ReleaseEvent H D) :=
  if i = j then (s, [])
  else
    (Function.update
      (Function.update s i ⟨(s j).ptr, (s j).deleter⟩)
      j ⟨none, (s j).deleter⟩,
     ((s i).reset none).2)

/-- `make_unique<T>(args...)` (source lines 106-109): the scalar
overload.  The argument models the outcome of `new T(args...)`: `none`
when the allocation mechanism cannot produce memory (the exception
propagates and no owner is constructed), `some h` when allocation and
initialization succeed.  On success the owner adopts the handle with the
default-constructed scalar releaser (`delete`). -/
def make_unique (alloc : Option H) : Option (MyUniquePtr H DeleteKind) :=
  alloc.map (fun h => ⟨some h, DeleteKind.single⟩)

/-- `make_unique<T>(size)` (source lines 112-115): the array overload.
The argument models the outcome of `new T[size]()`; on success the owner
adopts the block with the default-constructed array releaser
(`delete[]`). -/
def make_unique_array (alloc : Option H) : Option (MyUniquePtr H DeleteKind) :=
  alloc.map (fun h => ⟨some h, DeleteKind.block⟩)

/-- `make_unique<int>(v)` with a successful allocation: `new int(v)`
yields a cell holding `v`. -/
def construct_owned_int (v : Int) : Option (MyUniquePtr Int DeleteKind) :=
  make_unique (some v)

/-- `make_unique<int[]>(n)` with a successful allocation:
`new int[n]()` value-initializes the block, so every element is 0. -/
def construct_owned_array_int (n : Nat) :
    Option (MyUniquePtr (List Int) DeleteKind) :=
  make_unique_array (some (List.replicate n (0 : Int)))

/-- `a.get()[i] = v` on an array-mode owner: writes element `i` of the
owned block. -/
def arraySet (u : MyUniquePtr (List Int) D) (i : Nat) (v : Int) :
    MyUniquePtr (List Int) D :=
  ⟨u.ptr.map (fun b => b.set i v), u.deleter⟩

/-- `a.get()[i]` on an array-mode owner: reads element `i` of the owned
block. -/
def arrayGet (u : MyUniquePtr (List Int) D) (i : Nat) : Option Int :=
  u.ptr.bind (fun b => b[i]?)

/-- The demo loop of the source's `main` (lines 127-130): for `i` in
`0..4`, `arrPtr.get()[i] = i * 10`. -/
def demoFill (a : MyUniquePtr (List Int) DeleteKind) :
    MyUniquePtr (List Int) DeleteKind :=
  (List.range 5).foldl (fun u i => arraySet u i ((i : Int) * 10)) a

end MyUniqueSpec

namespace MyUniqueSpec

/-- Claim C7: swapping two owners exchanges both the handles and the
releasers — afterward the first owner holds the second's handle and
releaser and vice versa — no release event fires during the swap, and
the non-member swap agrees with the member swap.  The operation is a
total function on owner states (it cannot allocate or fail). -/
theorem C7_swap_exchanges (H D : Type) (a b : MyUniquePtr H D) :
    a.swap b = (⟨b.ptr, b.deleter⟩, ⟨a.ptr, a.deleter⟩, []) ∧
    swapFree a b = a.swap b :=
  ⟨rfl, rfl⟩

/-- Claim C6: `release()` returns the currently-held raw handle and
nulls the owner's handle without invoking the releaser; a second
`release()` on the now-absent owner returns the absent value and again
performs no release; destroying the owner after `release()` performs no
release. -/
theorem C6_release_transfers (H D : Type) (u : MyUniquePtr H D) :
    (u.release).1 = u.ptr ∧
    (u.release).2.1.ptr = none ∧
    (u.release).2.2 = [] ∧
    ((u.release).2.1.release).1 = none ∧
    ((u.release).2.1.release).2.2 = [] ∧
    (u.release).2.1.destruct = [] :=
  ⟨rfl, rfl, rfl, rfl, rfl, rfl⟩

/-- Claim C10: `release()` modifies only the handle component: the
stored releaser is unchanged, so a later `reset(new_handle)` keeps the
original releaser and a later destruction releases with the original
releaser; destruction immediately after `release()` performs no
release. -/
theorem C10_release_frame (H D : Type) (u : MyUniquePtr H D) :
    (u.release).2.1.deleter = u.deleter ∧
    (∀ p : Option H, ((u.release).2.1.reset p).1.deleter = u.deleter) ∧
    (∀ h2 : H,
      (((u.release).2.1.reset (some h2)).1).destruct =
        [⟨u.deleter, h2, some h2⟩]) ∧
    (u.release).2.1.destruct = [] :=
  ⟨rfl, fun _ => rfl, fun _ => rfl, rfl⟩

/-- Claim C9: the scalar free constructor adopts the freshly allocated
resource in scalar mode — `construct_owned<int>(42)` yields an owner `o`
with `*o = 42` and the single-object releaser — and when the allocation
mechanism cannot produce memory the failure propagates: no owner is
produced (and no resource exists to leak, the owner constructor never
having run). -/
theorem C9_construct_owned (H : Type) (v : Int) :
    make_unique (none : Option H) = none ∧
    make_unique (some v) = some ⟨some v, DeleteKind.single⟩ ∧
    construct_owned_int 42 = some ⟨some 42, DeleteKind.single⟩ ∧
    (construct_owned_int 42).map (fun o => o.deref) = some (some 42) :=
  ⟨rfl, rfl, rfl, rfl⟩

/-- Claim C1: `construct_owned_array<int>(5)` yields an owner whose
handle points at 5 value-initialized (zero) elements, settable and
readable individually through `get()` (the demo loop writes `i * 10`
and reads it back); destroying any array-path owner triggers the block
release (`delete[]`) on the block, destroying any scalar-path owner
triggers the single-object release (`delete`), and for every owner every
release event uses exactly the owner's stored releaser — the two release
actions are never interchanged. -/
theorem C1_array_scalar_paths :
    (construct_owned_array_int 5 =
        some ⟨some (List.replicate 5 (0 : Int)), DeleteKind.block⟩ ∧
      (List.replicate 5 (0 : Int)).length = 5 ∧
      (∀ i : Fin 5,
        arrayGet
          (demoFill ⟨some (List.replicate 5 (0 : Int)), DeleteKind.block⟩)
          i.1 = some ((i.1 : Int) * 10))) ∧
    (∀ (n : Nat) (a : MyUniquePtr (List Int) DeleteKind),
      construct_owned_array_int n = some a →
      a.destruct =
        [⟨DeleteKind.block, List.replicate n 0, some (List.replicate n 0)⟩]) ∧
    (∀ (v : Int) (o : MyUniquePtr Int DeleteKind),
      construct_owned_int v = some o →
      o.destruct = [⟨DeleteKind.single, v, some v⟩]) ∧
    (∀ (H D : Type) (u : MyUniquePtr H D) (e : ReleaseEvent H D),
      e ∈ u.destruct → e.releaser = u.deleter) := by
  refine ⟨⟨rfl, rfl, by decide⟩, ?_, ?_, ?_⟩
  · intro n a h
    simp only [construct_owned_array_int, make_unique_array, Option.map,
      Option.some.injEq] at h
    subst h
    rfl
  · intro v o h
    simp only [construct_owned_int, make_unique, Option.map,
      Option.some.injEq] at h
    subst h
    rfl
  · intro H D u e he
    rcases hp : u.ptr with _ | h
    · simp [MyUniquePtr.destruct, MyUniquePtr.reset, hp] at he
    · simp [MyUniquePtr.destruct, MyUniquePtr.reset, hp] at he
      simp [he]

theorem C1_array_scalar_paths_witness :
    (MyUniquePtr.mk (some (List.replicate 3 (0 : Int)))
        DeleteKind.block).destruct =
      [⟨DeleteKind.block, List.replicate 3 0, some (List.replicate 3 0)⟩] :=
  C1_array_scalar_paths.2.1 3
    ⟨some (List.replicate 3 (0 : Int)), DeleteKind.block⟩ rfl

/-- Claim C2: an owner holding a resource, when destroyed, performs the
release action exactly once (a single release event, applying the stored
releaser to the held handle); an owner whose handle is absent at
destruction performs no release action. -/
theorem C2_release_exactly_once (H D : Type) (u : MyUniquePtr H D) :
    (∀ h, u.ptr = some h →
      u.destruct = [⟨u.deleter, h, some h⟩] ∧ u.destruct.length = 1) ∧
    (u.ptr = none → u.destruct = []) := by
  refine ⟨fun h hp => ?_, fun hp => ?_⟩
  · have hd : u.destruct = [⟨u.deleter, h, some h⟩] := by
      simp [MyUniquePtr.destruct, MyUniquePtr.reset, hp]
    exact ⟨hd, by rw [hd]; rfl⟩
  · simp [MyUniquePtr.destruct, MyUniquePtr.reset, hp]

theorem C2_release_exactly_once_witness :
    (MyUniquePtr.mk (some (1 : Int)) DeleteKind.single).destruct =
        [⟨DeleteKind.single, 1, some 1⟩] ∧
      (MyUniquePtr.mk (some (1 : Int)) DeleteKind.single).destruct.length
        = 1 ∧
      (MyUniquePtr.mk (none : Option Int) DeleteKind.single).destruct
        = [] :=
  ⟨((C2_release_exactly_once Int DeleteKind ⟨some 1,
      DeleteKind.single⟩).1 1 rfl).1,
   ((C2_release_exactly_once Int DeleteKind ⟨some 1,
      DeleteKind.single⟩).1 1 rfl).2,
   (C2_release_exactly_once Int DeleteKind ⟨none,
      DeleteKind.single⟩).2 rfl⟩

/-- Claim C3: `reset(H2)` on an owner holding a non-absent handle `H1`
invokes the releaser on `H1` exactly once (the single release event)
and then stores `H2` as the new handle without invoking the releaser on
`H2`; on an owner with an absent handle, `reset` invokes no releaser and
simply stores the new handle. -/
theorem C3_reset_replaces (H D : Type) (u : MyUniquePtr H D)
    (p : Option H) :
    (∀ h1, u.ptr = some h1 →
      u.reset p = (⟨p, u.deleter⟩, [⟨u.deleter, h1, some h1⟩])) ∧
    (u.ptr = none → u.reset p = (⟨p, u.deleter⟩, [])) := by
  refine ⟨fun h1 hp => ?_, fun hp => ?_⟩
  · simp [MyUniquePtr.reset, hp]
  · simp [MyUniquePtr.reset, hp]

theorem C3_reset_replaces_witness :
    (MyUniquePtr.mk (some (1 : Int)) DeleteKind.single).reset (some 2) =
        (⟨some 2, DeleteKind.single⟩, [⟨DeleteKind.single, 1, some 1⟩]) ∧
      (MyUniquePtr.mk (none : Option Int) DeleteKind.single).reset
          (some 2) =
        (⟨some 2, DeleteKind.single⟩, []) :=
  ⟨(C3_reset_replaces Int DeleteKind ⟨some 1, DeleteKind.single⟩
      (some 2)).1 1 rfl,
   (C3_reset_replaces Int DeleteKind ⟨none, DeleteKind.single⟩
      (some 2)).2 rfl⟩

/-- Claim C4: move-assigning the owner at address `j` into a distinct
owner at address `i` first releases the target's currently-held resource
(exactly the events of `reset()` on it), then transfers the source's
handle and releaser to the target, leaving the source absent (and every
other owner untouched); move-assigning an owner from itself is a no-op:
the store is unchanged and no release event fires. -/
theorem C4_move_assign (H D : Type) (s : Store H D) (i j : Nat) :
    (i ≠ j →
      (moveAssign s i j).1 i = ⟨(s j).ptr, (s j).deleter⟩ ∧
      (moveAssign s i j).1 j = ⟨none, (s j).deleter⟩ ∧
      (moveAssign s i j).2 = (s i).destruct ∧
      (∀ k, k ≠ i → k ≠ j → (moveAssign s i j).1 k = s k)) ∧
    moveAssign s i i = (s, []) := by
  refine ⟨fun hij => ?_, by simp [moveAssign]⟩
  have hm : moveAssign s i j =
      (Function.update
        (Function.update s i ⟨(s j).ptr, (s j).deleter⟩)
        j ⟨none, (s j).deleter⟩,
       ((s i).reset none).2) := by
    simp [moveAssign, hij]
  refine ⟨?_, ?_, ?_, ?_⟩
  · rw [hm]
    show Function.update _ j _ i = _
    rw [Function.update_noteq hij, Function.update_same]
  · rw [hm]
    exact Function.update_same _ _ _
  · rw [hm]
    rfl
  · intro k hki hkj
    rw [hm]
    show Function.update _ j _ k = _
    rw [Function.update_noteq hkj, Function.update_noteq hki]

/-- A concrete two-owner store used to instantiate the move-assignment
theorem. -/
def demoStore : Store Int DeleteKind :=
  fun k => if k = 0 then ⟨some 1, DeleteKind.single⟩
    else ⟨some 2, DeleteKind.block⟩

theorem C4_move_assign_witness :
    (moveAssign demoStore 0 1).1 0 =
        ⟨(demoStore 1).ptr, (demoStore 1).deleter⟩ ∧
      (moveAssign demoStore 0 1).1 1 = ⟨none, (demoStore 1).deleter⟩ ∧
      (moveAssign demoStore 0 1).2 = (demoStore 0).destruct ∧
      moveAssign demoStore 2 2 = (demoStore, []) := by
  obtain ⟨h1, h2, h3, _⟩ :=
    (C4_move_assign Int DeleteKind demoStore 0 1).1 (by decide)
  exact ⟨h1, h2, h3, (C4_move_assign Int DeleteKind demoStore 2 2).2⟩

/-- Claim C5: move-constructing `b` from an owner `a` holding a
non-absent handle transfers the handle and the releaser to `b`, leaves
`a` absent, fires no release event during the transfer, and destroying
`a` afterward performs no release. -/
theorem C5_move_ctor (H D : Type) (a : MyUniquePtr H D) (h : H)
    (hp : a.ptr = some h) :
    (a.moveCtor).1.get = some h ∧
    (a.moveCtor).1.deleter = a.deleter ∧
    (a.moveCtor).2.1.get = none ∧
    (a.moveCtor).2.2 = [] ∧
    (a.moveCtor).2.1.destruct = [] :=
  ⟨hp, rfl, rfl, rfl, rfl⟩

theorem C5_move_ctor_witness :
    ((MyUniquePtr.mk (some (7 : Int)) DeleteKind.single).moveCtor).1.get
        = some 7 ∧
      ((MyUniquePtr.mk (some (7 : Int))
          DeleteKind.single).moveCtor).1.deleter = DeleteKind.single ∧
      ((MyUniquePtr.mk (some (7 : Int))
          DeleteKind.single).moveCtor).2.1.get = none ∧
      ((MyUniquePtr.mk (some (7 : Int))
          DeleteKind.single).moveCtor).2.2 = [] ∧
      ((MyUniquePtr.mk (some (7 : Int))
          DeleteKind.single).moveCtor).2.1.destruct = [] :=
  C5_move_ctor Int DeleteKind ⟨some 7, DeleteKind.single⟩ 7 rfl

/-- Claim C8: in `reset(new_handle)` with a non-absent current handle,
the releaser runs on the old handle before the stored handle is updated:
the single release event records that at the instant the releaser is
invoked the owner's stored handle still equals the old, being-released
handle (the source does not null `ptr` first). -/
theorem C8_reset_stale_handle (H D : Type) (u : MyUniquePtr H D)
    (p : Option H) (h1 : H) (hp : u.ptr = some h1) :
    (u.reset p).2 = [⟨u.deleter, h1, some h1⟩] ∧
    ∀ e ∈ (u.reset p).2,
      e.storedAtCall = some e.target ∧ e.target = h1 := by
  have hr : (u.reset p).2 = [⟨u.deleter, h1, some h1⟩] := by
    simp [MyUniquePtr.reset, hp]
  refine ⟨hr, ?_⟩
  intro e he
  rw [hr] at he
  simp at he
  simp [he]

theorem C8_reset_stale_handle_witness :
    ((MyUniquePtr.mk (some (5 : Int)) DeleteKind.single).reset
        (some 6)).2 = [⟨DeleteKind.single, 5, some 5⟩] ∧
      ∀ e ∈ ((MyUniquePtr.mk (some (5 : Int)) DeleteKind.single).reset
          (some 6)).2,
        e.storedAtCall = some e.target ∧ e.target = 5 :=
  C8_reset_stale_handle Int DeleteKind ⟨some 5, DeleteKind.single⟩
    (some 6) 5 rfl

end MyUniqueSpec
